import Mathlib

/-!
Verification of the Linexin "System Information" widget
(`z-system-information-widget.py`).

Python strings are modelled as `List Char`; byte counts and time values are
modelled as exact rationals (Python's float division by powers of two and its
float comparisons are exact on the magnitudes involved); `os.environ.get(v, '')`
is modelled by a string field that is empty when the variable is unset; a
subprocess call is modelled by `Option (Int × List Char)` — `none` when the call
raises one of the exceptions the code catches, `some (rc, out)` when it returns
an exit code `rc` and standard output `out`.
-/

namespace SysInfo

/-! ### ASCII character helpers (model of Python `str.lower` / `str.capitalize`) -/

def asciiToLower (c : Char) : Char :=
  if 65 ≤ c.toNat ∧ c.toNat ≤ 90 then Char.ofNat (c.toNat + 32) else c

def asciiToUpper (c : Char) : Char :=
  if 97 ≤ c.toNat ∧ c.toNat ≤ 122 then Char.ofNat (c.toNat - 32) else c

/-- Model of Python `str.lower()` (ASCII fragment). -/
def pyLower (s : List Char) : List Char := s.map asciiToLower

/-- Model of Python `str.capitalize()` (ASCII fragment): first character
upper-cased, all remaining characters lower-cased. -/
def pyCapitalize : List Char → List Char
  | [] => []
  | c :: cs => asciiToUpper c :: pyLower cs

/-- Association-list lookup, model of Python `dict.get` on a literal dict
(insertion order preserved, as in Python 3.7+). -/
def lookupL (k : List Char) : List (List Char × List Char) → Option (List Char)
  | [] => none
  | (k2, v) :: rest => if k = k2 then some v else lookupL k rest

/-! ### `get_desktop_environment` (source lines 438–468) -/

/-- The literal `de_mapping` dict of `get_desktop_environment`. -/
def de_mapping : List (List Char × List Char) :=
  [("gnome".toList, "GNOME".toList),
   ("kde".toList, "KDE".toList),
   ("xfce".toList, "Xfce".toList),
   ("mate".toList, "MATE".toList),
   ("cinnamon".toList, "Cinnamon".toList),
   ("lxde".toList, "LXDE".toList),
   ("lxqt".toList, "LXQt".toList),
   ("pantheon".toList, "Pantheon".toList),
   ("budgie".toList, "Budgie".toList),
   ("deepin".toList, "Deepin".toList),
   ("unity".toList, "Unity".toList),
   ("i3".toList, "i3".toList),
   ("sway".toList, "Sway".toList),
   ("awesome".toList, "Awesome".toList),
   ("openbox".toList, "Openbox".toList),
   ("fluxbox".toList, "Fluxbox".toList),
   ("bspwm".toList, "bspwm".toList),
   ("dwm".toList, "dwm".toList),
   ("qtile".toList, "Qtile".toList),
   ("herbstluftwm".toList, "herbstluftwm".toList)]

/-- The three environment variables consulted by `get_desktop_environment`,
in source order: `XDG_CURRENT_DESKTOP`, `DESKTOP_SESSION`,
`XDG_SESSION_DESKTOP`.  An unset variable is the empty string
(`os.environ.get(env_var, '')`). -/
structure DeskEnv where
  xdgCurrentDesktop : List Char
  desktopSession : List Char
  xdgSessionDesktop : List Char

/-- The `for env_var in [...]` loop body of `get_desktop_environment`:
`de = os.environ.get(env_var, '').lower()`; `if de: return
de_mapping.get(de, de.capitalize())`; after the loop, `return _("Unknown")`. -/
def deScan : List (List Char) → List Char
  | [] => "Unknown".toList
  | v :: rest =>
    let de := pyLower v
    if de = [] then deScan rest
    else
      match lookupL de de_mapping with
      | some name => name
      | none => pyCapitalize de

/-- Translation of `get_desktop_environment` (source lines 438–468). -/
def get_desktop_environment (e : DeskEnv) : List Char :=
  deScan [e.xdgCurrentDesktop, e.desktopSession, e.xdgSessionDesktop]

/-- The claim's reading of `get_desktop_environment`: take the first of the
three variables whose value is non-empty; look up the lowercased value in the
fixed table; when absent, return the lowercased value with only its first
character capitalized; "Unknown" when all three values are empty. -/
def claimCapFirst : List Char → List Char
  | [] => []
  | c :: cs => asciiToUpper c :: cs

def claimDeScan : List (List Char) → List Char
  | [] => "Unknown".toList
  | v :: rest =>
    if v = [] then claimDeScan rest
    else
      let lv := pyLower v
      match lookupL lv de_mapping with
      | some name => name
      | none => claimCapFirst lv

def claimDesktopEnvironment (e : DeskEnv) : List Char :=
  claimDeScan [e.xdgCurrentDesktop, e.desktopSession, e.xdgSessionDesktop]

/-! ### `get_window_manager` (source lines 470–530) -/

/-- Model of Python's `str.isspace` characters relevant to `strip()`. -/
def isPySpace (c : Char) : Bool :=
  c == ' ' || c == '\t' || c == '\n' || c == '\r' || c == '\x0b' || c == '\x0c'

/-- Model of Python `str.strip()` (no argument): remove leading and trailing
whitespace. -/
def pyStrip (s : List Char) : List Char :=
  ((s.dropWhile isPySpace).reverse.dropWhile isPySpace).reverse

/-- Model of Python `str.strip('"')`: remove leading and trailing `"`
characters. -/
def stripQuotes (s : List Char) : List Char :=
  ((s.dropWhile (· == '"')).reverse.dropWhile (· == '"')).reverse

/-- Model of Python `str.split(sep)` for a one-character separator. -/
def splitOnChar (sep : Char) : List Char → List (List Char)
  | [] => [[]]
  | c :: cs =>
    match splitOnChar sep cs with
    | [] => [[c]]
    | t :: ts => if c = sep then [] :: t :: ts else (c :: t) :: ts

/-- Model of the Python substring test `needle in hay`. -/
def isSubstr (needle : List Char) : List Char → Bool
  | [] => needle.isEmpty
  | c :: cs => List.isPrefixOf needle (c :: cs) || isSubstr needle cs

/-- Model of `os.path.basename`: everything after the last `/`. -/
def basenameL (p : List Char) : List Char :=
  (p.reverse.takeWhile (fun c => c != '/')).reverse

/-- The literal `wm_mapping` dict of `get_window_manager`, in insertion
order. -/
def wm_mapping : List (List Char × List Char) :=
  [("mutter".toList, "Mutter".toList),
   ("kwin_x11".toList, "KWin".toList),
   ("kwin_wayland".toList, "KWin".toList),
   ("kwin".toList, "KWin".toList),
   ("xfwm4".toList, "Xfwm4".toList),
   ("openbox".toList, "Openbox".toList),
   ("i3".toList, "i3".toList),
   ("sway".toList, "Sway".toList),
   ("awesome".toList, "Awesome".toList),
   ("dwm".toList, "DWM".toList),
   ("bspwm".toList, "bspwm".toList),
   ("qtile".toList, "Qtile".toList),
   ("herbstluftwm".toList, "herbstluftwm".toList),
   ("fluxbox".toList, "Fluxbox".toList),
   ("marco".toList, "Marco".toList),
   ("metacity".toList, "Metacity".toList),
   ("compiz".toList, "Compiz".toList),
   ("enlightenment".toList, "Enlightenment".toList),
   ("cwm".toList, "CWM".toList),
   ("jwm".toList, "JWM".toList)]

/-- The `for wm_proc, wm_name in wm_mapping.items(): if wm_proc in
result.stdout: return wm_name` loop of `get_window_manager`. -/
def firstMatch : List (List Char × List Char) → List Char → Option (List Char)
  | [], _ => none
  | (k, v) :: rest, out => if isSubstr k out then some v else firstMatch rest out

/-- The inputs of `get_window_manager`: the `WINDOW_MANAGER` environment
variable (empty when unset), the outcome of `ps aux`, the `DISPLAY`
environment variable, and the outcomes of the two `xprop` calls.  `none`
models a raised `subprocess.SubprocessError` (which includes
`TimeoutExpired`) or `FileNotFoundError`, the exceptions the code catches. -/
structure WMEnv where
  windowManager : List Char
  psResult : Option (Int × List Char)
  display : List Char
  xprop1 : Option (Int × List Char)
  xprop2 : Option (Int × List Char)

/-- The name derived from the two `xprop` calls when they both succeed with
the markers the code checks for (`'window id' in result.stdout`, `'=' in
result2.stdout`): `result2.stdout.split('=')[1].strip().strip('"')`. -/
def xpropDerivedName (e : WMEnv) : Option (List Char) :=
  if e.display ≠ [] then
    match e.xprop1 with
    | none => none
    | some (rc1, out1) =>
      if rc1 = 0 ∧ isSubstr "window id".toList out1 then
        match e.xprop2 with
        | none => none
        | some (rc2, out2) =>
          if rc2 = 0 ∧ out2.contains '=' then
            some (stripQuotes (pyStrip ((splitOnChar '=' out2).getD 1 [])))
          else none
      else none
  else none

/-- The first `try` block of `get_window_manager`: when `ps aux` returned
exit code 0, scan `wm_mapping` in order for a process name occurring in the
output. -/
def psBranch (e : WMEnv) : Option (List Char) :=
  match e.psResult with
  | none => none
  | some (rc, out) => if rc = 0 then firstMatch wm_mapping out else none

/-- Translation of `get_window_manager` (source lines 470–530). -/
def get_window_manager (e : WMEnv) : List Char :=
  if e.windowManager ≠ [] then basenameL e.windowManager
  else
    match psBranch e with
    | some name => name
    | none =>
      match xpropDerivedName e with
      | some name =>
        if pyLower name ≠ "gnome shell".toList then name else "Unknown".toList
      | none => "Unknown".toList

/-- The xprop step of the claim: the xprop-derived name when `DISPLAY` is set
and both queries succeed, unless that name is "gnome shell"
case-insensitively; "Unknown" otherwise. -/
def claimWindowManagerXprop (e : WMEnv) : List Char :=
  match xpropDerivedName e with
  | some name =>
    if pyLower name ≠ "gnome shell".toList then name else "Unknown".toList
  | none => "Unknown".toList

/-- The claim's reading of `get_window_manager`: basename of `WINDOW_MANAGER`
when set non-empty; otherwise, when `ps aux` succeeds, the display name of the
first process-name key of the table, in table order, occurring as a substring
of the output; otherwise the xprop step; and "Unknown" in every remaining
case. -/
def claimWindowManager (e : WMEnv) : List Char :=
  if e.windowManager ≠ [] then basenameL e.windowManager
  else
    match e.psResult with
    | some (rc, out) =>
      if rc = 0 then
        match wm_mapping.find? (fun kv => isSubstr kv.1 out) with
        | some kv => kv.2
        | none => claimWindowManagerXprop e
      else claimWindowManagerXprop e
    | none => claimWindowManagerXprop e

/-! ### `format_bytes` (source lines 364–370)

Byte counts are exact rationals: a nonnegative machine byte count is below
2^53, so Python's float comparisons and divisions by 1024.0 are exact on the
values involved, and `f"{v:.1f}"` renders the exact value rounded to one
decimal digit with ties to even. -/

/-- Round a rational to the nearest integer, ties to even. -/
def rhe (q : ℚ) : ℤ :=
  let f := ⌊q⌋
  let r := q - f
  if r < 1 / 2 then f
  else if 1 / 2 < r then f + 1
  else if f % 2 = 0 then f else f + 1

/-- Model of Python `f"{v:.1f}"` for nonnegative `v`: the tenths-rounded
value rendered with exactly one decimal digit. -/
def render1f (q : ℚ) : List Char :=
  let n := rhe (q * 10)
  (toString (n / 10)).toList ++ '.' :: (toString (n % 10)).toList

/-- The unit list of the `for unit in ['B', 'KB', 'MB', 'GB', 'TB']` loop. -/
def fbUnits : List (List Char) :=
  ["B".toList, "KB".toList, "MB".toList, "GB".toList, "TB".toList]

/-- The loop body of `format_bytes`: return on the first unit with
`bytes_value < 1024.0`, dividing by 1024 on each pass, and fall through to
`PB` after the loop. -/
def fbGo (v : ℚ) : List (List Char) → List Char
  | [] => render1f v ++ ' ' :: "PB".toList
  | u :: us => if v < 1024 then render1f v ++ ' ' :: u else fbGo (v / 1024) us

/-- Translation of `format_bytes` (source lines 364–370). -/
def format_bytes (b : ℚ) : List Char := fbGo b fbUnits

/-- The claim's unit index: the first `k` among 0..4 (B, KB, MB, GB, TB) with
`b / 1024^k < 1024`, and 5 (PB) when there is none. -/
def claimUnitIdx (b : ℚ) : ℕ :=
  if b / 1024 ^ (0 : ℕ) < 1024 then 0
  else if b / 1024 ^ (1 : ℕ) < 1024 then 1
  else if b / 1024 ^ (2 : ℕ) < 1024 then 2
  else if b / 1024 ^ (3 : ℕ) < 1024 then 3
  else if b / 1024 ^ (4 : ℕ) < 1024 then 4
  else 5

def claimUnitName : ℕ → List Char
  | 0 => "B".toList
  | 1 => "KB".toList
  | 2 => "MB".toList
  | 3 => "GB".toList
  | 4 => "TB".toList
  | _ => "PB".toList

/-! ### `clean_fastfetch_output` (source lines 316–323)

The two `re.sub(..., '', text)` passes are modelled as left-to-right scans: at
each position, a match of the pattern is deleted and scanning resumes after
it; on a non-match the character is kept and scanning advances one position.
The first pattern `\x1B\[[0-9]*[ABCD]|\x1B\[[0-9]*G|\x1B\[[0-9]*C` matches
`ESC [ digits* x` with `x` one of `A B C D G` (the third alternative is
subsumed by the first); the second pattern `\x1B\[[0-9;]*m` matches
`ESC [ [0-9;]* m`. -/

def isCsiFinalCursor (c : Char) : Bool :=
  c == 'A' || c == 'B' || c == 'C' || c == 'D' || c == 'G'

/-- First pass of `clean_fastfetch_output`: delete cursor-movement codes. -/
def stripCursor : List Char → List Char
  | [] => []
  | '\x1B' :: '[' :: r2 =>
    let r3 := r2.dropWhile Char.isDigit
    if r3 ≠ [] ∧ isCsiFinalCursor (r3.headD ' ') then stripCursor r3.tail
    else '\x1B' :: stripCursor ('[' :: r2)
  | c :: rest => c :: stripCursor rest
termination_by l => l.length
decreasing_by
  · have h1 : (r2.dropWhile Char.isDigit).length ≤ r2.length :=
      (List.dropWhile_sublist (p := Char.isDigit) (l := r2)).length_le
    have h2 : (r2.dropWhile Char.isDigit).tail.length ≤ (r2.dropWhile Char.isDigit).length :=
      (List.tail_sublist _).length_le
    simp only [List.length_cons]
    omega
  · simp
  · simp [Nat.lt_succ_self]

def isColorBody (c : Char) : Bool := c.isDigit || c == ';'

/-- Second pass of `clean_fastfetch_output`: delete color codes. -/
def stripColor : List Char → List Char
  | [] => []
  | '\x1B' :: '[' :: r2 =>
    let r3 := r2.dropWhile isColorBody
    if r3 ≠ [] ∧ r3.headD ' ' = 'm' then stripColor r3.tail
    else '\x1B' :: stripColor ('[' :: r2)
  | c :: rest => c :: stripColor rest
termination_by l => l.length
decreasing_by
  · have h1 : (r2.dropWhile isColorBody).length ≤ r2.length :=
      (List.dropWhile_sublist (p := isColorBody) (l := r2)).length_le
    have h2 : (r2.dropWhile isColorBody).tail.length ≤ (r2.dropWhile isColorBody).length :=
      (List.tail_sublist _).length_le
    simp only [List.length_cons]
    omega
  · simp
  · simp [Nat.lt_succ_self]

/-- Translation of `clean_fastfetch_output` (source lines 316–323): the
cursor-code pass followed by the color-code pass. -/
def clean_fastfetch_output (s : List Char) : List Char := stripColor (stripCursor s)

/-! ### `load_fastfetch_text` (source lines 287–314) -/

/-- Outcome of one `subprocess.run` call in `run_fastfetch`: completion with
an exit code and stdout, `TimeoutExpired`, `FileNotFoundError`, or any other
exception with its message. -/
inductive RunOutcome where
  | completed (rc : Int) (stdout : List Char)
  | timeout
  | notFound
  | err (msg : List Char)

/-- Translation of the `run_fastfetch` body of `load_fastfetch_text` (source
lines 289–306): `r1` is the outcome of `fastfetch --color-output never`, `r2`
the outcome of plain `fastfetch` (only consulted when the first run completed
with a nonzero exit code; an exception in either run is caught by the same
`try`). The returned string is what is handed to `update_fastfetch_text`. -/
def load_fastfetch_text_output (r1 r2 : RunOutcome) : List Char :=
  match r1 with
  | .completed rc out =>
    if rc = 0 then out
    else
      match r2 with
      | .completed rc2 out2 =>
        if rc2 = 0 then clean_fastfetch_output out2
        else "Fastfetch command failed or not installed".toList
      | .timeout => "Fastfetch command timed out".toList
      | .notFound => "Fastfetch is not installed on this system".toList
      | .err m => "Error running fastfetch: ".toList ++ m
  | .timeout => "Fastfetch command timed out".toList
  | .notFound => "Fastfetch is not installed on this system".toList
  | .err m => "Error running fastfetch: ".toList ++ m

/-! ### `setup_fastfetch_view` / `spawn_fastfetch_in_terminal`
(source lines 163–217, 231–285) -/

/-- The kind of widget added to the "fastfetch" page of the content stack. -/
inductive FFChild where
  | terminal
  | textPane
deriving DecidableEq

/-- The state established by `setup_fastfetch_view`: which child was added to
the "fastfetch" stack page, the value of `self.terminal_available`, and
whether `self.fastfetch_buffer` exists (it is created only by
`setup_fastfetch_text_fallback`). -/
structure FastfetchSetup where
  child : FFChild
  terminalAvailable : Bool
  hasBuffer : Bool
deriving DecidableEq

/-- Translation of `setup_fastfetch_view` (source lines 163–196):
`vteAvailable` is `VTE_AVAILABLE` (a VTE binding was imported);
`terminalCreationOk` is whether the `try` block creating the VTE terminal ran
to completion. -/
def setup_fastfetch_view (vteAvailable terminalCreationOk : Bool) : FastfetchSetup :=
  if !vteAvailable then ⟨.textPane, false, true⟩
  else if terminalCreationOk then ⟨.terminal, true, false⟩
  else ⟨.textPane, false, true⟩

/-- Where the fastfetch output is rendered after `load_fastfetch_info`:
in the terminal when `terminal_available` holds and spawning succeeds;
otherwise through `load_fastfetch_text`, whose `update_fastfetch_text`
writes the output only when `fastfetch_buffer` exists (`hasattr` check,
source lines 325–329).  `none` means the output is rendered nowhere. -/
def fastfetchRenderTarget (vteAvailable terminalCreationOk spawnOk : Bool) :
    Option FFChild :=
  let s := setup_fastfetch_view vteAvailable terminalCreationOk
  if s.terminalAvailable then
    if spawnOk then some .terminal
    else if s.hasBuffer then some .textPane else none
  else if s.hasBuffer then some .textPane else none

/-! ### `load_system_info` (source lines 614–683) -/

/-- The row labels produced by the success path of `load_info`, in order:
`versionId` and `versionDate` are the results of `get_version_id` and
`get_version_date`, whose rows are appended only when non-`None`. -/
def load_info_labels (versionId versionDate : Option (List Char)) :
    List (List Char) :=
  ["Operating System".toList]
  ++ (match versionId with
      | some _ => ["Version ID".toList]
      | none => [])
  ++ (match versionDate with
      | some _ => ["Version Date".toList]
      | none => [])
  ++ ["Kernel".toList, "Session Type".toList, "Desktop Environment".toList,
      "Window Manager".toList, "Processor".toList, "Graphics".toList,
      "Memory".toList, "Disk Usage".toList, "Uptime".toList]

/-- The claim's nine host facts, in the claimed relative order (labels as the
code writes them: CPU is "Processor", GPU is "Graphics", disk is
"Disk Usage"). -/
def claimHostFactLabels : List (List Char) :=
  ["Operating System".toList, "Kernel".toList, "Desktop Environment".toList,
   "Window Manager".toList, "Processor".toList, "Graphics".toList,
   "Memory".toList, "Disk Usage".toList, "Uptime".toList]

/-! ### `get_cpu_info` (source lines 372–381) -/

/-- The `for line in f` loop of `get_cpu_info`: on the first line starting
with "model name", return `line.split(':')[1].strip()`; a missing index 1
raises `IndexError`, caught by the bare `except` which falls through to
"Unknown". -/
def cpuScan : List (List Char) → List Char
  | [] => "Unknown".toList
  | l :: rest =>
    if List.isPrefixOf "model name".toList l then
      match (splitOnChar ':' l)[1]? with
      | some f => pyStrip f
      | none => "Unknown".toList
    else cpuScan rest

/-- Translation of `get_cpu_info` (source lines 372–381): `none` models a
file that cannot be opened; lines carry their trailing newline, as Python
file iteration yields them. -/
def get_cpu_info : Option (List (List Char)) → List Char
  | none => "Unknown".toList
  | some lines => cpuScan lines

/-- The amended claim's reading of `get_cpu_info`: the stripped second
colon-field of the first "model name" line when that line contains a `:`;
"Unknown" when the file cannot be opened, no line starts with "model name",
or the first such line has no `:`. -/
def claimCpuInfo : Option (List (List Char)) → List Char
  | none => "Unknown".toList
  | some lines =>
    match lines.find? (fun l => List.isPrefixOf "model name".toList l) with
    | none => "Unknown".toList
    | some l =>
      match (splitOnChar ':' l)[1]? with
      | some f => pyStrip f
      | none => "Unknown".toList

/-! ### `get_uptime` (source lines 390–408)

The uptime `time.time() - psutil.boot_time()` is an exact rational; Python's
float `//` is floor division, `%` is `u - m * ⌊u / m⌋`, and `int()` of their
(nonnegative) results is the floor. -/

/-- Model of Python float `u % m`. -/
def pyMod (u m : ℚ) : ℚ := u - m * ⌊u / m⌋

def uptimeDays (u : ℚ) : ℤ := ⌊u / 86400⌋

def uptimeHours (u : ℚ) : ℤ := ⌊pyMod u 86400 / 3600⌋

def uptimeMinutes (u : ℚ) : ℤ := ⌊pyMod u 3600 / 60⌋

/-- The format selection of `get_uptime`: `"{days}d {hours}h {minutes}m"`
when `days > 0`, `"{hours}h {minutes}m"` when `hours > 0`, else
`"{minutes}m"`. -/
def formatUptime (u : ℚ) : List Char :=
  if uptimeDays u > 0 then
    (toString (uptimeDays u)).toList ++ "d ".toList
      ++ (toString (uptimeHours u)).toList ++ "h ".toList
      ++ (toString (uptimeMinutes u)).toList ++ "m".toList
  else if uptimeHours u > 0 then
    (toString (uptimeHours u)).toList ++ "h ".toList
      ++ (toString (uptimeMinutes u)).toList ++ "m".toList
  else (toString (uptimeMinutes u)).toList ++ "m".toList

/-- Translation of `get_uptime` (source lines 390–408): `none` models any
raised exception (caught by the bare `except`, returning "Unknown"). -/
def get_uptime : Option ℚ → List Char
  | none => "Unknown".toList
  | some u => formatUptime u

/-! ### Theorems -/

theorem char_toNat_ofNat_small (n : Nat) (h : n < 55296) : (Char.ofNat n).toNat = n := by
  have hv : n.isValidChar := Or.inl h
  simp [Char.ofNat, hv, Char.ofNatAux, Char.toNat, UInt32.toNat]

theorem asciiToLower_idem (c : Char) : asciiToLower (asciiToLower c) = asciiToLower c := by
  unfold asciiToLower
  by_cases h : 65 ≤ c.toNat ∧ c.toNat ≤ 90
  · rw [if_pos h]
    have hv : (Char.ofNat (c.toNat + 32)).toNat = c.toNat + 32 :=
      char_toNat_ofNat_small _ (by omega)
    rw [if_neg (by omega)]
  · simp [h]

theorem pyLower_pyLower (l : List Char) : pyLower (pyLower l) = pyLower l := by
  unfold pyLower
  rw [List.map_map]
  exact List.map_congr_left fun c _ => asciiToLower_idem c

theorem pyCapitalize_pyLower (v : List Char) :
    pyCapitalize (pyLower v) = claimCapFirst (pyLower v) := by
  cases v with
  | nil => rfl
  | cons c cs =>
    show pyCapitalize (asciiToLower c :: pyLower cs) = claimCapFirst (asciiToLower c :: pyLower cs)
    simp only [pyCapitalize, claimCapFirst, pyLower_pyLower]

theorem pyLower_eq_nil (v : List Char) : pyLower v = [] ↔ v = [] := by
  simp [pyLower]

theorem deScan_eq_claimDeScan (l : List (List Char)) : deScan l = claimDeScan l := by
  induction l with
  | nil => rfl
  | cons v rest ih =>
    simp only [deScan, claimDeScan]
    by_cases hv : v = []
    · subst hv
      simpa using ih
    · rw [if_neg ((not_congr (pyLower_eq_nil v)).mpr hv), if_neg hv]
      rw [pyCapitalize_pyLower]

theorem firstMatch_eq_find (m : List (List Char × List Char)) (out : List Char) :
    firstMatch m out = (m.find? fun kv => isSubstr kv.1 out).map Prod.snd := by
  induction m with
  | nil => rfl
  | cons kv rest ih =>
    obtain ⟨k, v⟩ := kv
    by_cases h : isSubstr k out = true
    · simp [firstMatch, h]
    · simp only [Bool.not_eq_true] at h
      simp [firstMatch, h, ih]

/-- C1: `get_desktop_environment` consults `XDG_CURRENT_DESKTOP`,
`DESKTOP_SESSION`, `XDG_SESSION_DESKTOP` in that fixed priority order; for the
first one whose value is non-empty it returns the canonical display name from
the fixed mapping table keyed on the lowercased value (or, when the lowercased
value is not a key of the table, that value with only its first character
capitalized), and when none of the three variables has a non-empty value it
returns "Unknown". -/
theorem C1_get_desktop_environment_correct (e : DeskEnv) :
    get_desktop_environment e = claimDesktopEnvironment e :=
  deScan_eq_claimDeScan _

/-- C3 (amended): `format_bytes b` renders `b / 1024^k` with one decimal
digit, a space and a unit, where the unit is the first of B, KB, MB, GB, TB
for which `b / 1024^k < 1024`, and PB with `k = 5` when `b ≥ 1024^5`; the
pre-rounding quotient is below 1024 for every unit other than PB (though the
rendered one-decimal numeric part may round up to 1024.0). -/
theorem C3_format_bytes_correct (b : ℚ) :
    format_bytes b =
      render1f (b / 1024 ^ claimUnitIdx b) ++ ' ' :: claimUnitName (claimUnitIdx b) ∧
    (claimUnitIdx b ≠ 5 → b / 1024 ^ claimUnitIdx b < 1024) ∧
    ((1024 : ℚ) ^ 5 ≤ b → claimUnitIdx b = 5) := by
  have e0 : b / 1024 ^ (0 : ℕ) = b := by norm_num
  have e1 : b / 1024 ^ (1 : ℕ) = b / 1024 := by ring
  have e2 : b / 1024 ^ (2 : ℕ) = b / 1024 / 1024 := by ring
  have e3 : b / 1024 ^ (3 : ℕ) = b / 1024 / 1024 / 1024 := by ring
  have e4 : b / 1024 ^ (4 : ℕ) = b / 1024 / 1024 / 1024 / 1024 := by ring
  have e5 : b / 1024 ^ (5 : ℕ) = b / 1024 / 1024 / 1024 / 1024 / 1024 := by ring
  by_cases h0 : b / 1024 ^ (0 : ℕ) < 1024
  · have hidx : claimUnitIdx b = 0 := by rw [claimUnitIdx, if_pos h0]
    refine ⟨?_, fun _ => by rw [hidx]; exact h0,
      fun h => absurd h (by rw [e0] at h0; push_neg; nlinarith)⟩
    rw [hidx]
    simp only [format_bytes, fbUnits, fbGo, claimUnitName]
    rw [if_pos (e0 ▸ h0), e0]
  · have hb0 : ¬ b < 1024 := by rwa [e0] at h0
    by_cases h1 : b / 1024 ^ (1 : ℕ) < 1024
    · have hidx : claimUnitIdx b = 1 := by rw [claimUnitIdx, if_neg h0, if_pos h1]
      refine ⟨?_, fun _ => by rw [hidx]; exact h1, fun h => absurd h ?_⟩
      · rw [hidx]
        simp only [format_bytes, fbUnits, fbGo, claimUnitName]
        rw [if_neg hb0, if_pos (e1 ▸ h1), e1]
      · rw [e1] at h1
        push_neg
        nlinarith
    · have hb1 : ¬ b / 1024 < 1024 := by rwa [e1] at h1
      by_cases h2 : b / 1024 ^ (2 : ℕ) < 1024
      · have hidx : claimUnitIdx b = 2 := by rw [claimUnitIdx, if_neg h0, if_neg h1, if_pos h2]
        refine ⟨?_, fun _ => by rw [hidx]; exact h2, fun h => absurd h ?_⟩
        · rw [hidx]
          simp only [format_bytes, fbUnits, fbGo, claimUnitName]
          rw [if_neg hb0, if_neg hb1, if_pos (e2 ▸ h2), e2]
        · rw [e2] at h2
          push_neg
          nlinarith
      · have hb2 : ¬ b / 1024 / 1024 < 1024 := by rwa [e2] at h2
        by_cases h3 : b / 1024 ^ (3 : ℕ) < 1024
        · have hidx : claimUnitIdx b = 3 := by
            rw [claimUnitIdx, if_neg h0, if_neg h1, if_neg h2, if_pos h3]
          refine ⟨?_, fun _ => by rw [hidx]; exact h3, fun h => absurd h ?_⟩
          · rw [hidx]
            simp only [format_bytes, fbUnits, fbGo, claimUnitName]
            rw [if_neg hb0, if_neg hb1, if_neg hb2, if_pos (e3 ▸ h3), e3]
          · rw [e3] at h3
            push_neg
            nlinarith
        · have hb3 : ¬ b / 1024 / 1024 / 1024 < 1024 := by rwa [e3] at h3
          by_cases h4 : b / 1024 ^ (4 : ℕ) < 1024
          · have hidx : claimUnitIdx b = 4 := by
              rw [claimUnitIdx, if_neg h0, if_neg h1, if_neg h2, if_neg h3, if_pos h4]
            refine ⟨?_, fun _ => by rw [hidx]; exact h4, fun h => absurd h ?_⟩
            · rw [hidx]
              simp only [format_bytes, fbUnits, fbGo, claimUnitName]
              rw [if_neg hb0, if_neg hb1, if_neg hb2, if_neg hb3, if_pos (e4 ▸ h4), e4]
            · rw [e4] at h4
              push_neg
              nlinarith
          · have hb4 : ¬ b / 1024 / 1024 / 1024 / 1024 < 1024 := by rwa [e4] at h4
            have hidx : claimUnitIdx b = 5 := by
              rw [claimUnitIdx, if_neg h0, if_neg h1, if_neg h2, if_neg h3, if_neg h4]
            refine ⟨?_, fun hne => absurd hidx hne, fun _ => hidx⟩
            rw [hidx]
            simp only [format_bytes, fbUnits, fbGo, claimUnitName]
            rw [if_neg hb0, if_neg hb1, if_neg hb2, if_neg hb3, if_neg hb4, e5]

/-- Witness for C3 at the concrete byte count 5000. -/
theorem C3_format_bytes_correct_witness :
    format_bytes 5000 =
      render1f (5000 / 1024 ^ claimUnitIdx 5000) ++ ' ' :: claimUnitName (claimUnitIdx 5000) :=
  (C3_format_bytes_correct 5000).1

/-- C3 counterexample to the claim's final sentence: at b = 1048525 the unit
is KB (index 1, not PB), yet the rendered one-decimal numeric part is exactly
1024.0 (the quotient 1023.9501953125 has tenths-rounded value 10240), so the
numeric part of the result is not below 1024.0. -/
theorem C3_numeric_part_counterexample :
    claimUnitIdx 1048525 = 1 ∧
    rhe ((1048525 : ℚ) / 1024 * 10) = 10240 ∧
    format_bytes 1048525 = "1024.0 KB".toList := by
  have hfl : ⌊(1048525 : ℚ) / 1024 * 10⌋ = 10239 := by
    rw [Int.floor_eq_iff]
    norm_num
  have hrhe : rhe ((1048525 : ℚ) / 1024 * 10) = 10240 := by
    simp only [rhe, hfl]
    norm_num
  have hidx : claimUnitIdx (1048525 : ℚ) = 1 := by
    rw [claimUnitIdx, if_neg (by norm_num), if_pos (by norm_num)]
  refine ⟨hidx, hrhe, ?_⟩
  simp only [format_bytes, fbUnits, fbGo]
  rw [if_neg (by norm_num), if_pos (by norm_num), render1f]
  rw [hrhe]
  rfl

/-- C2: `get_window_manager` returns the basename of the `WINDOW_MANAGER`
environment variable whenever it is set non-empty; otherwise, when `ps aux`
succeeds, the display name of the first process-name key of its fixed mapping
table, in table order, that occurs as a substring of the ps output; otherwise,
when `DISPLAY` is set and the two xprop queries succeed, the xprop-derived
window-manager name unless that name is "gnome shell" case-insensitively; and
"Unknown" in every remaining case. -/
theorem C2_get_window_manager_correct (e : WMEnv) :
    get_window_manager e = claimWindowManager e := by
  unfold get_window_manager claimWindowManager
  by_cases hwm : e.windowManager = []
  · rw [if_neg (by simp [hwm]), if_neg (by simp [hwm])]
    cases hps : e.psResult with
    | none => simp [psBranch, hps, claimWindowManagerXprop]
    | some p =>
      obtain ⟨rc, out⟩ := p
      by_cases hrc : rc = 0
      · subst hrc
        simp only [psBranch, hps, if_pos rfl, firstMatch_eq_find]
        cases hf : wm_mapping.find? fun kv => isSubstr kv.1 out with
        | none => simp [claimWindowManagerXprop]
        | some kv => simp
      · simp [psBranch, hps, hrc, claimWindowManagerXprop]
  · rw [if_pos (by simp [hwm]), if_pos (by simp [hwm])]

theorem stripCursor_sublist (s : List Char) : (stripCursor s).Sublist s := by
  induction s using stripCursor.induct with
  | case1 => simp [stripCursor]
  | case2 r2 r3 hcf ih =>
    rw [stripCursor]
    simp only [if_pos hcf]
    have h1 : ((r2.dropWhile Char.isDigit).tail).Sublist r2 :=
      (List.tail_sublist _).trans (List.dropWhile_sublist _)
    exact (ih.trans h1).trans ((List.sublist_cons_self _ _).trans (List.sublist_cons_self _ _))
  | case3 r2 r3 hcf ih =>
    rw [stripCursor]
    simp only [if_neg hcf]
    exact ih.cons₂ _
  | case4 c rest hne ih =>
    rw [stripCursor.eq_def]
    split
    · next heq => exact absurd heq (List.cons_ne_nil _ _)
    · next r2 heq =>
      exact absurd heq (by
        intro hh
        injection hh with h1 h2
        exact hne r2 h1 h2)
    · next c2 rest2 hne2 heq =>
      injection heq with h1 h2
      subst h1
      subst h2
      exact ih.cons₂ _

theorem stripColor_sublist (s : List Char) : (stripColor s).Sublist s := by
  induction s using stripColor.induct with
  | case1 => simp [stripColor]
  | case2 r2 r3 hcf ih =>
    rw [stripColor]
    simp only [if_pos hcf]
    have h1 : ((r2.dropWhile isColorBody).tail).Sublist r2 :=
      (List.tail_sublist _).trans (List.dropWhile_sublist _)
    exact (ih.trans h1).trans ((List.sublist_cons_self _ _).trans (List.sublist_cons_self _ _))
  | case3 r2 r3 hcf ih =>
    rw [stripColor]
    simp only [if_neg hcf]
    exact ih.cons₂ _
  | case4 c rest hne ih =>
    rw [stripColor.eq_def]
    split
    · next heq => exact absurd heq (List.cons_ne_nil _ _)
    · next r2 heq =>
      exact absurd heq (by
        intro hh
        injection hh with h1 h2
        exact hne r2 h1 h2)
    · next c2 rest2 hne2 heq =>
      injection heq with h1 h2
      subst h1
      subst h2
      exact ih.cons₂ _

theorem stripCursor_no_esc (s : List Char) (h : '\x1B' ∉ s) : stripCursor s = s := by
  induction s with
  | nil => simp [stripCursor]
  | cons c rest ih =>
    have hc : c ≠ '\x1B' := fun he => h (he ▸ List.mem_cons_self c rest)
    have hrest : '\x1B' ∉ rest := fun hm => h (List.mem_cons_of_mem _ hm)
    rw [stripCursor.eq_def]
    split
    · next heq => exact absurd heq (List.cons_ne_nil _ _)
    · next r2 heq =>
      exact absurd heq (by
        intro hh
        injection hh with h1 h2
        exact hc h1)
    · next c2 rest2 hne2 heq =>
      injection heq with h1 h2
      subst h1
      subst h2
      rw [ih hrest]

theorem stripColor_no_esc (s : List Char) (h : '\x1B' ∉ s) : stripColor s = s := by
  induction s with
  | nil => simp [stripColor]
  | cons c rest ih =>
    have hc : c ≠ '\x1B' := fun he => h (he ▸ List.mem_cons_self c rest)
    have hrest : '\x1B' ∉ rest := fun hm => h (List.mem_cons_of_mem _ hm)
    rw [stripColor.eq_def]
    split
    · next heq => exact absurd heq (List.cons_ne_nil _ _)
    · next r2 heq =>
      exact absurd heq (by
        intro hh
        injection hh with h1 h2
        exact hc h1)
    · next c2 rest2 hne2 heq =>
      injection heq with h1 h2
      subst h1
      subst h2
      rw [ih hrest]

/-- C9: for every input, `clean_fastfetch_output` returns a subsequence of
the input (it only deletes characters), and an input containing no ESC
character is returned unchanged. -/
theorem C9_clean_fastfetch_output_subsequence (s : List Char) :
    (clean_fastfetch_output s).Sublist s ∧ ('\x1B' ∉ s → clean_fastfetch_output s = s) := by
  constructor
  · exact (stripColor_sublist _).trans (stripCursor_sublist s)
  · intro h
    rw [clean_fastfetch_output, stripCursor_no_esc s h, stripColor_no_esc s h]

/-- Witness for C9 at a concrete ESC-free string. -/
theorem C9_clean_fastfetch_output_subsequence_witness :
    clean_fastfetch_output "fastfetch".toList = "fastfetch".toList :=
  (C9_clean_fastfetch_output_subsequence _).2 (by decide)

/-- C4: in the text fallback, a first run exiting 0 is displayed verbatim; a
failed first run followed by a second run exiting 0 is displayed after
`clean_fastfetch_output`; and in every remaining case (second run failing,
timeout, command absent, other exception) the corresponding error message is
displayed instead. -/
theorem C4_load_fastfetch_text_correct (r1 r2 : RunOutcome) :
    (∀ out, r1 = .completed 0 out → load_fastfetch_text_output r1 r2 = out) ∧
    (∀ rc out out2, r1 = .completed rc out → rc ≠ 0 → r2 = .completed 0 out2 →
      load_fastfetch_text_output r1 r2 = clean_fastfetch_output out2) ∧
    (∀ rc out rc2 out2, r1 = .completed rc out → rc ≠ 0 → r2 = .completed rc2 out2 → rc2 ≠ 0 →
      load_fastfetch_text_output r1 r2 = "Fastfetch command failed or not installed".toList) ∧
    (∀ rc out, r1 = .completed rc out → rc ≠ 0 → r2 = .timeout →
      load_fastfetch_text_output r1 r2 = "Fastfetch command timed out".toList) ∧
    (∀ rc out, r1 = .completed rc out → rc ≠ 0 → r2 = .notFound →
      load_fastfetch_text_output r1 r2 = "Fastfetch is not installed on this system".toList) ∧
    (∀ rc out m, r1 = .completed rc out → rc ≠ 0 → r2 = .err m →
      load_fastfetch_text_output r1 r2 = "Error running fastfetch: ".toList ++ m) ∧
    (r1 = .timeout →
      load_fastfetch_text_output r1 r2 = "Fastfetch command timed out".toList) ∧
    (r1 = .notFound →
      load_fastfetch_text_output r1 r2 = "Fastfetch is not installed on this system".toList) ∧
    (∀ m, r1 = .err m →
      load_fastfetch_text_output r1 r2 = "Error running fastfetch: ".toList ++ m) := by
  refine ⟨?_, ?_, ?_, ?_, ?_, ?_, ?_, ?_, ?_⟩
  · rintro out rfl
    simp [load_fastfetch_text_output]
  · rintro rc out out2 rfl hrc rfl
    simp [load_fastfetch_text_output, hrc]
  · rintro rc out rc2 out2 rfl hrc rfl hrc2
    simp [load_fastfetch_text_output, hrc, hrc2]
  · rintro rc out rfl hrc rfl
    simp [load_fastfetch_text_output, hrc]
  · rintro rc out rfl hrc rfl
    simp [load_fastfetch_text_output, hrc]
  · rintro rc out m rfl hrc rfl
    simp [load_fastfetch_text_output, hrc]
  · rintro rfl
    simp [load_fastfetch_text_output]
  · rintro rfl
    simp [load_fastfetch_text_output]
  · rintro m rfl
    simp [load_fastfetch_text_output]

/-- Witness for C4: a first run exiting 0 with output "x" is displayed
verbatim. -/
theorem C4_load_fastfetch_text_correct_witness :
    load_fastfetch_text_output (.completed 0 "x".toList) .timeout = "x".toList :=
  (C4_load_fastfetch_text_correct (.completed 0 "x".toList) .timeout).1 "x".toList rfl

/-- C5 (code bug evaluation): the "fastfetch" stack page holds the terminal
exactly when VTE was imported and terminal creation succeeded — but in that
configuration, when spawning fastfetch later fails, `load_fastfetch_text` is
invoked while `fastfetch_buffer` was never created, so
`update_fastfetch_text` drops the output: the fastfetch output is rendered
neither in the terminal nor in a text pane, contradicting the claim's
conclusion. -/
theorem C5_spawn_failure_renders_nowhere :
    (∀ v c : Bool,
      (setup_fastfetch_view v c).child = FFChild.terminal ↔ v = true ∧ c = true) ∧
    (setup_fastfetch_view true true).terminalAvailable = true ∧
    (setup_fastfetch_view true true).hasBuffer = false ∧
    fastfetchRenderTarget true true false = none :=
  ⟨by decide, rfl, rfl, rfl⟩

/-- C6: on the success path of `load_info`, the row list contains each of the
nine host facts exactly once, in the claimed relative order, and every other
row is one of Version ID, Version Date, Session Type. -/
theorem C6_load_system_info_rows (versionId versionDate : Option (List Char)) :
    claimHostFactLabels.Sublist (load_info_labels versionId versionDate) ∧
    (∀ l ∈ claimHostFactLabels, (load_info_labels versionId versionDate).count l = 1) ∧
    (∀ l ∈ load_info_labels versionId versionDate, l ∉ claimHostFactLabels →
      l ∈ ["Version ID".toList, "Version Date".toList, "Session Type".toList]) := by
  have heq : load_info_labels versionId versionDate =
      load_info_labels (if versionId.isSome then some [] else none)
        (if versionDate.isSome then some [] else none) := by
    cases versionId <;> cases versionDate <;> rfl
  rw [heq]
  cases versionId.isSome <;> cases versionDate.isSome <;>
    exact ⟨by decide, by decide, by decide⟩

/-- Witness for C6 with both optional values absent: the nine facts appear in
order. -/
theorem C6_load_system_info_rows_witness :
    claimHostFactLabels.Sublist (load_info_labels none none) :=
  (C6_load_system_info_rows none none).1

/-- C7 counterexample: the file content consisting of the single line
"model name" (no colon) has a line starting with "model name", yet
`get_cpu_info` returns "Unknown" — the claim's only "Unknown" cases are an
unopenable file or no "model name" line, and the "text between the first and
second ':'" it promises does not exist (the colon-split has one field). -/
theorem C7_get_cpu_info_counterexample :
    get_cpu_info (some ["model name".toList]) = "Unknown".toList ∧
    List.isPrefixOf "model name".toList "model name".toList = true ∧
    (splitOnChar ':' "model name".toList).length = 1 :=
  ⟨by decide, by decide, by decide⟩

theorem cpuScan_eq_claim (lines : List (List Char)) :
    cpuScan lines =
      (match lines.find? (fun l => List.isPrefixOf "model name".toList l) with
       | none => "Unknown".toList
       | some l =>
         match (splitOnChar ':' l)[1]? with
         | some f => pyStrip f
         | none => "Unknown".toList) := by
  induction lines with
  | nil => rfl
  | cons l rest ih =>
    by_cases h : List.isPrefixOf "model name".toList l = true
    · simp only [cpuScan]
      rw [if_pos h, List.find?_cons_of_pos _ h]
    · simp only [cpuScan]
      rw [if_neg h, List.find?_cons_of_neg _ (by simpa using h)]
      exact ih

/-- C7 (amended): `get_cpu_info` returns, for the first line of
`/proc/cpuinfo` starting with "model name", the second colon-separated field
stripped of surrounding whitespace when that line contains a ':', and
"Unknown" when the file cannot be opened, contains no line starting with
"model name", or the first such line contains no ':'. -/
theorem C7_get_cpu_info_correct (file : Option (List (List Char))) :
    get_cpu_info file = claimCpuInfo file := by
  cases file with
  | none => rfl
  | some lines => exact cpuScan_eq_claim lines

theorem pyMod_eq_fract (u m : ℚ) (hm : m ≠ 0) : pyMod u m = m * Int.fract (u / m) := by
  rw [pyMod, Int.fract]
  field_simp

theorem pyMod_nonneg (u m : ℚ) (hm : 0 < m) : 0 ≤ pyMod u m := by
  rw [pyMod_eq_fract u m hm.ne']
  exact mul_nonneg hm.le (Int.fract_nonneg _)

theorem pyMod_lt (u m : ℚ) (hm : 0 < m) : pyMod u m < m := by
  rw [pyMod_eq_fract u m hm.ne']
  calc m * Int.fract (u / m) < m * 1 :=
        mul_lt_mul_of_pos_left (Int.fract_lt_one _) hm
    _ = m := mul_one m

/-- C10: for a nonnegative uptime, the hour component lies in [0, 24), the
minute component in [0, 60), `get_uptime` returns "Dd Hh Mm" when the
whole-day count is positive, "Hh Mm" when it is zero and the hour count is
positive, "Mm" otherwise, and any exception yields "Unknown". -/
theorem C10_get_uptime_correct (u : ℚ) (_hu : 0 ≤ u) :
    (0 ≤ uptimeHours u ∧ uptimeHours u < 24) ∧
    (0 ≤ uptimeMinutes u ∧ uptimeMinutes u < 60) ∧
    get_uptime (some u) =
      (if 0 < uptimeDays u then
        (toString (uptimeDays u)).toList ++ "d ".toList
          ++ (toString (uptimeHours u)).toList ++ "h ".toList
          ++ (toString (uptimeMinutes u)).toList ++ "m".toList
      else if 0 < uptimeHours u then
        (toString (uptimeHours u)).toList ++ "h ".toList
          ++ (toString (uptimeMinutes u)).toList ++ "m".toList
      else (toString (uptimeMinutes u)).toList ++ "m".toList) ∧
    get_uptime none = "Unknown".toList := by
  refine ⟨⟨?_, ?_⟩, ⟨?_, ?_⟩, rfl, rfl⟩
  · exact Int.floor_nonneg.mpr
      (div_nonneg (pyMod_nonneg u 86400 (by norm_num)) (by norm_num))
  · refine Int.floor_lt.mpr ?_
    rw [div_lt_iff₀ (by norm_num)]
    calc pyMod u 86400 < 86400 := pyMod_lt u 86400 (by norm_num)
      _ = (24 : ℤ) * 3600 := by norm_num
  · exact Int.floor_nonneg.mpr
      (div_nonneg (pyMod_nonneg u 3600 (by norm_num)) (by norm_num))
  · refine Int.floor_lt.mpr ?_
    rw [div_lt_iff₀ (by norm_num)]
    calc pyMod u 3600 < 3600 := pyMod_lt u 3600 (by norm_num)
      _ = (60 : ℤ) * 60 := by norm_num

/-- Witness for C10 at the concrete uptime 90061 s (1 day, 1 hour, 1 minute). -/
theorem C10_get_uptime_correct_witness :
    0 ≤ uptimeHours (90061 : ℚ) ∧ uptimeHours (90061 : ℚ) < 24 :=
  (C10_get_uptime_correct 90061 (by norm_num)).1

end SysInfo
